import Mathlib

/-!
Verification of the session/reconciliation core of the IFRS Wise Advisor
client. The definitions below are a shallow embedding of the component
`IFRSAdvisor` (file `src/components/IFRSAdvisor.tsx`, together with its
verbose variant that adds a connect timeout and a close-code check): the
reactive variables `sessionLoading`, `answers`, `typing`, `summary` and
`sentInOrder` become the fields of `SessionState`, the record keyed by
`question_number` becomes an association list with in-place overwrite
(`upsertAnswer` / `setKey`), the memoised `sortedAnswers` view becomes a
stable sort by `question_number`, and the WebSocket callbacks (`onmessage`,
`onerror`, `onclose`, the connect-timeout callback) and `handleSubmit`
become pure state-transition functions that also report the user-visible
toast they raise and whether they closed the socket.
-/

namespace IFRSAdvisor

/-- Wire shape of an `answer` message (interface `AnswerMessage` in the
source): `{ type: "answer", question_number, question, answer, timestamp? }`.
`question_number` is a JavaScript number used as an object key; it is
modelled as an integer. -/
structure AnswerMessage where
  question_number : Int
  question : String
  answer : String
  timestamp : Option String
deriving DecidableEq, Repr

/-- Wire shape of a `summary` message (interface `SummaryMessage` in the
source): `{ type: "summary", summary, timestamp?, sent_in_order? }`. -/
structure SummaryMessage where
  summary : String
  timestamp : Option String
  sent_in_order : Option Bool
deriving DecidableEq, Repr

/-- One inbound frame after the `JSON.parse` attempt inside `onmessage`:
`malformed` is a frame whose payload did not parse (the `catch` branch);
`answer` and `summaryMsg` are the two recognised message kinds; `other` is a
parsed message whose `type` is neither (the code ignores it apart from the
generic `sent_in_order` read). Any parsed message may carry a boolean
`sent_in_order` field, read by `typeof data.sent_in_order === "boolean"`;
for an answer or unknown message it is the `sio` component, for a summary
message it is the message's own `sent_in_order` field. -/
inductive Frame where
  | malformed
  | answer (sio : Option Bool) (m : AnswerMessage)
  | summaryMsg (m : SummaryMessage)
  | other (sio : Option Bool)
deriving DecidableEq, Repr

/-- The reactive state of the component that the socket callbacks mutate:
`sessionLoading` (the "awaiting" indicator), `answers` (the JavaScript object
keyed by `question_number`, modelled as a list with at-most-one-entry-per-key
maintained by `upsertAnswer`), `typing` (object keyed by question number),
`summary` and `sentInOrder` (the ordering hint). -/
@[ext]
structure SessionState where
  sessionLoading : Bool
  answers : List AnswerMessage
  typing : List (Int × Bool)
  summary : Option SummaryMessage
  sentInOrder : Option Bool
deriving DecidableEq, Repr

/-- Initial `useState` values: loading off, `answers` and `typing` empty,
no summary, no ordering hint. -/
def initSession : SessionState :=
  { sessionLoading := false, answers := [], typing := [], summary := none,
    sentInOrder := none }

/-- The JavaScript object write `{ ...prev, [msg.question_number]: msg }`:
if the key is already present its entry is overwritten in place, otherwise
the entry is added. -/
def upsertAnswer (m : AnswerMessage) : List AnswerMessage → List AnswerMessage
  | [] => [m]
  | a :: l =>
      if a.question_number = m.question_number then m :: l
      else a :: upsertAnswer m l

/-- The object write `{ ...t, [k]: v }` on the `typing` object. -/
def setKey (k : Int) (v : Bool) : List (Int × Bool) → List (Int × Bool)
  | [] => [(k, v)]
  | p :: l => if p.1 = k then (k, v) :: l else p :: setKey k v l

/-- Comparator of the view `Object.values(answers).sort((a, b) =>
a.question_number - b.question_number)`. -/
def leByNum (a b : AnswerMessage) : Prop :=
  a.question_number ≤ b.question_number

instance : DecidableRel leByNum :=
  fun a b => Int.decLe a.question_number b.question_number

instance : IsTotal AnswerMessage leByNum :=
  ⟨fun a b => Int.le_total a.question_number b.question_number⟩

instance : IsTrans AnswerMessage leByNum :=
  ⟨fun _ _ _ h1 h2 => le_trans h1 h2⟩

/-- Strict version of `leByNum`, used to show that two sorted views over the
same records coincide when keys are distinct. -/
def ltByNum (a b : AnswerMessage) : Prop :=
  a.question_number < b.question_number

instance : IsAntisymm AnswerMessage ltByNum :=
  ⟨fun _ _ h1 h2 => absurd h2 (lt_asymm h1)⟩

/-- The memoised `sortedAnswers` view (`orderedAnswers()` of the spec):
`Object.values(answers)` sorted by `question_number` with the engine's
stable comparison sort, modelled as a stable insertion sort. -/
def sortedAnswers (s : SessionState) : List AnswerMessage :=
  List.insertionSort leByNum s.answers

/-- The generic read `if (typeof data.sent_in_order === "boolean")
setSentInOrder(data.sent_in_order)` performed on every parsed message. -/
def applySio (s : SessionState) : Option Bool → SessionState
  | none => s
  | some b => { s with sentInOrder := some b }

/-- The body of `socket.onmessage`: a frame that failed to parse is swallowed
by the `catch` and changes nothing; an `answer` frame overwrites its record
and clears its typing flag; a `summary` frame stores the summary and turns
the loading indicator off; an unknown `type` only feeds the generic
`sent_in_order` read. -/
def onMessage (s : SessionState) : Frame → SessionState
  | .malformed => s
  | .answer sio m =>
      let s1 := applySio s sio
      { s1 with answers := upsertAnswer m s1.answers,
                typing := setKey m.question_number false s1.typing }
  | .summaryMsg m =>
      let s1 := applySio s m.sent_in_order
      { s1 with summary := some m, sessionLoading := false }
  | .other sio => applySio s sio

/-- A user-visible toast raised by a socket callback. -/
inductive Diag where
  | connectionError
  | connectionTimeout
  | connectionClosed (code : Int)
deriving DecidableEq, Repr

/-- What one socket callback did: the state it left, the toast it raised
(if any), and whether it called `socket.close()`. -/
structure HandlerOut where
  state : SessionState
  toast : Option Diag
  closedSocket : Bool
deriving DecidableEq, Repr

/-- The `onmessage` callback raises no toast and never closes the socket;
all its effect is `onMessage`. -/
def handleMessage (s : SessionState) (f : Frame) : HandlerOut :=
  { state := onMessage s f, toast := none, closedSocket := false }

/-- The `onerror` callback: loading off, generic "Connection error" toast. -/
def handleError (s : SessionState) : HandlerOut :=
  { state := { s with sessionLoading := false },
    toast := some Diag.connectionError, closedSocket := false }

/-- The WebSocket normal-closure status code tested by `ev.code !== 1000`. -/
def normalClosureCode : Int := 1000

/-- The `onclose` callback: loading off in every case, and a
"Connection closed (code)" toast exactly when the close code is not the
normal closure code `1000`. -/
def handleClose (s : SessionState) (code : Int) : HandlerOut :=
  { state := { s with sessionLoading := false },
    toast := if code ≠ normalClosureCode then some (Diag.connectionClosed code)
             else none,
    closedSocket := false }

/-- The interval, in milliseconds, passed to `window.setTimeout` for the
connect timeout (`}, 10000);` in the source). -/
def connectTimeoutMs : Nat := 10000

/-- The connect-timeout callback: if the socket is still in the `CONNECTING`
ready state when the timer fires, the socket is closed, loading is turned
off and a "Connection timeout" toast — distinct from the generic
`connectionError` — is raised; otherwise the callback does nothing. -/
def handleConnectTimeout (s : SessionState) (stillConnecting : Bool) :
    HandlerOut :=
  if stillConnecting then
    { state := { s with sessionLoading := false },
      toast := some Diag.connectionTimeout, closedSocket := true }
  else { state := s, toast := none, closedSocket := false }

/-- One asynchronous event delivered by a transport to its callbacks. -/
inductive WsEvent where
  | message (f : Frame)
  | socketError
  | socketClosed (code : Int)
  | connectTimeoutFired (stillConnecting : Bool)
deriving DecidableEq, Repr

/-- Dispatch of one transport event to the callback the code installs
for it. -/
def handleEvent (s : SessionState) : WsEvent → HandlerOut
  | .message f => handleMessage s f
  | .socketError => handleError s
  | .socketClosed code => handleClose s code
  | .connectTimeoutFired c => handleConnectTimeout s c

/-- Sequential processing of a stream of transport events (the single
logical thread of control: events are folded one at a time in delivery
order). -/
def runEvents (s : SessionState) (es : List WsEvent) : SessionState :=
  es.foldl (fun st e => (handleEvent st e).state) s

/-- Whitespace for the embedding of `String.prototype.trim`. -/
def jsWhitespace (c : Char) : Bool :=
  c == ' ' || c == '\t' || c == '\n' || c == '\r' || c == '\x0b' || c == '\x0c'

/-- Embedding of JavaScript `s.trim()`: leading and trailing whitespace
removed. -/
def jsTrim (s : String) : String :=
  ⟨((s.data.dropWhile jsWhitespace).reverse.dropWhile jsWhitespace).reverse⟩

/-- The computation `questions.map((q) => q.trim()).filter((q) =>
q.length > 0)` at the top of `handleSubmit`: the questions that survive
validation, in order; their 1-based positions are the question numbers. -/
def survivingQuestions (qs : List String) : List String :=
  (qs.map jsTrim).filter (fun q => decide (0 < q.length))

/-- The reset `setTyping(Object.fromEntries(trimmedQuestions.map((_, i) =>
[i + 1, true])))`: every question number `1..n` marked pending. -/
def initTyping (n : Nat) : List (Int × Bool) :=
  (List.range n).map (fun i : Nat => (Int.ofNat i + 1, true))

/-- The question numbers `1..n` as a list of integers (display numbering of
`n` questions). -/
def oneToN (n : Nat) : List Int :=
  (List.range n).map (fun i : Nat => Int.ofNat i + 1)

/-- The session state immediately after a valid submission with `n`
surviving questions: answers cleared, every number `1..n` typing, summary
and ordering hint cleared, loading on. -/
def freshSession (n : Nat) : SessionState :=
  { sessionLoading := true, answers := [], typing := initTyping n,
    summary := none, sentInOrder := none }

/-- The single outbound request sent once the transport opens. -/
structure RequestPayload where
  type : String
  background : String
  questions : List String
  model : String
deriving DecidableEq, Repr

/-- Result of `handleSubmit`: one of the two early validation returns (each
surfaces its toast and opens no transport), or a new transport opened with
the request payload it will send on open. -/
inductive SubmitOutcome where
  | rejectedEmptyBackground
  | rejectedNoQuestions
  | opened (p : RequestPayload)
deriving DecidableEq, Repr

/-- The component state plus a transport generation counter: `gen` counts
the `new WebSocket(...)` constructions so far, so the live transport is the
one numbered `gen` and every smaller number names a superseded transport. -/
structure Model where
  gen : Nat
  session : SessionState
deriving DecidableEq, Repr

/-- The component as mounted: no transport yet, initial reactive state. -/
def initialModel : Model :=
  { gen := 0, session := initSession }

/-- The fixed service address of the single realtime connection. -/
def wsUrl : String := "wss://104.248.169.227:8443/ws/rag/"

/-- The fixed model identifier put in the outbound payload. -/
def modelId : String := "gpt-4o-mini"

/-- The body of `handleSubmit`: trim and filter the questions; reject with a
toast and no further effect when the trimmed background is empty, then when
no question survives; otherwise reset all session state for the new session
(answers, typing, summary, ordering hint, loading) and open a fresh
transport (generation `gen + 1`) that will send the request payload on
open. -/
def handleSubmit (m : Model) (background : String) (questions : List String) :
    Model × SubmitOutcome :=
  let trimmedQuestions := survivingQuestions questions
  if jsTrim background = "" then
    (m, SubmitOutcome.rejectedEmptyBackground)
  else if trimmedQuestions.length = 0 then
    (m, SubmitOutcome.rejectedNoQuestions)
  else
    ({ gen := m.gen + 1, session := freshSession trimmedQuestions.length },
     SubmitOutcome.opened
       { type := "process_questions", background := jsTrim background,
         questions := trimmedQuestions, model := modelId })

/-- Delivery of an event fired by the transport numbered `sourceGen` (which
may be a superseded one). The callbacks the code installs close over the
shared state setters and never compare their socket with the current one, so
the event is applied to the current session state regardless of
`sourceGen`. -/
def dispatch (m : Model) (sourceGen : Nat) (e : WsEvent) :
    Model × HandlerOut :=
  let out := handleEvent m.session e
  ({ m with session := out.state }, out)

/-- Question numbers whose typing flag is set: `Object.entries(typing)
.filter(([, v]) => v)`, the keys still shown as provisional. -/
def pendingOf (t : List (Int × Bool)) : List Int :=
  (t.filter (fun p => p.2)).map Prod.fst

/-- The Pending set of the spec (`pendingNumbers()`): the question numbers
of the current session not yet answered. -/
def pendingNumbers (s : SessionState) : List Int :=
  pendingOf s.typing

/-- The answer record stored under key `k`, if any. -/
def lookupAnswer (k : Int) (l : List AnswerMessage) : Option AnswerMessage :=
  l.find? (fun a => a.question_number == k)

/-- The typing flag stored under key `k`, if any. -/
def lookupTyping (k : Int) (t : List (Int × Bool)) : Option Bool :=
  (t.find? (fun p => p.1 == k)).map Prod.snd

/-- A list of answer messages as the event stream that delivers them in
that order (each as a well-formed `answer` frame). -/
def answerEvents (msgs : List AnswerMessage) : List WsEvent :=
  msgs.map (fun m => WsEvent.message (Frame.answer none m))

/-- Whether an event is a well-formed answer frame for question `k`. -/
def isAnswerFor (e : WsEvent) (k : Int) : Bool :=
  match e with
  | .message (.answer _ m) => m.question_number == k
  | _ => false

/-- Sample answer record for question 1. -/
def aEx1 : AnswerMessage :=
  { question_number := 1, question := "Is this a finance lease?",
    answer := "Yes.", timestamp := none }

/-- Sample answer record for question 2. -/
def aEx2 : AnswerMessage :=
  { question_number := 2, question := "What discount rate applies?",
    answer := "The incremental borrowing rate.", timestamp := none }

/-- Sample answer for question 1 with a different answer text. -/
def aEx1v2 : AnswerMessage :=
  { question_number := 1, question := "Is this a finance lease?",
    answer := "No, it is an operating lease.", timestamp := none }

/-- Sample answer whose question number 0 is outside every initial pending
set. -/
def aEx0 : AnswerMessage :=
  { question_number := 0, question := "stray", answer := "stray answer",
    timestamp := none }

/-- Sample summary record. -/
def sEx : SummaryMessage :=
  { summary := "All questions addressed.", timestamp := none,
    sent_in_order := none }

theorem pending_freshSession (n : Nat) :
    pendingNumbers (freshSession n) = oneToN n := by
  unfold pendingNumbers freshSession pendingOf initTyping oneToN
  rw [List.filter_eq_self.mpr (fun a ha => ?_)]
  · rw [List.map_map]
    exact List.map_congr_left (fun a _ => rfl)
  · obtain ⟨i, _, rfl⟩ := List.mem_map.mp ha
    rfl

/-- C8: a received frame whose payload cannot be parsed (the `catch` branch
of `onmessage`) leaves the whole session state — answer records, pending
set, summary, ordering hint, awaiting indicator — unchanged, raises no
user-visible toast, and does not close the socket: the parse error is
captured inside the handler and never propagates or surfaces. -/
theorem C8_malformed_frame_swallowed (s : SessionState) :
    handleMessage s Frame.malformed
        = { state := s, toast := none, closedSocket := false } ∧
    sortedAnswers (handleMessage s Frame.malformed).state = sortedAnswers s ∧
    pendingNumbers (handleMessage s Frame.malformed).state
      = pendingNumbers s :=
  ⟨rfl, rfl, rfl⟩

/-- C10: the `onerror` and `onclose` callbacks change only the awaiting
indicator (besides surfacing a diagnostic): answer records, typing map,
summary and ordering hint are untouched, so answers received before the
failure are still available from the sorted view. -/
theorem C10_failure_preserves_results (s : SessionState) (code : Int) :
    (handleError s).state = { s with sessionLoading := false } ∧
    (handleClose s code).state = { s with sessionLoading := false } ∧
    sortedAnswers (handleError s).state = sortedAnswers s ∧
    sortedAnswers (handleClose s code).state = sortedAnswers s ∧
    pendingNumbers (handleError s).state = pendingNumbers s ∧
    pendingNumbers (handleClose s code).state = pendingNumbers s ∧
    (handleError s).state.summary = s.summary ∧
    (handleClose s code).state.summary = s.summary ∧
    (handleError s).state.sentInOrder = s.sentInOrder ∧
    (handleClose s code).state.sentInOrder = s.sentInOrder :=
  ⟨rfl, rfl, rfl, rfl, rfl, rfl, rfl, rfl, rfl, rfl⟩

/-- C7: when the connect-timeout callback fires while the socket is still
connecting, the attempt is abandoned: the socket is closed, the awaiting
indicator is turned off, and the timeout-specific toast — distinct from the
generic transport-error toast — is surfaced; when the socket is no longer
connecting the callback does nothing. The timer interval is 10000 ms. -/
theorem C7_connect_timeout (s : SessionState) :
    connectTimeoutMs = 10000 ∧
    handleConnectTimeout s true
      = { state := { s with sessionLoading := false },
          toast := some Diag.connectionTimeout, closedSocket := true } ∧
    (handleConnectTimeout s true).toast ≠ (handleError s).toast ∧
    handleConnectTimeout s false
      = { state := s, toast := none, closedSocket := false } := by
  refine ⟨rfl, rfl, ?_, rfl⟩
  simp [handleConnectTimeout, handleError]

/-- C3 counterexample: process a well-formed summary message (the session is
now Completed: the summary is stored and the awaiting indicator is off),
then deliver a close event with the abnormal code 1006; the `onclose`
callback surfaces a "Connection closed (1006)" toast even though the session
was already Completed — contradicting the claim that after a summary a
transport close is not surfaced as a failure. -/
theorem C3_close_after_summary_counterexample :
    ((handleMessage (freshSession 1) (Frame.summaryMsg sEx)).state).summary
        = some sEx ∧
    ((handleMessage (freshSession 1)
        (Frame.summaryMsg sEx)).state).sessionLoading = false ∧
    (handleClose
        (handleMessage (freshSession 1) (Frame.summaryMsg sEx)).state
        1006).toast = some (Diag.connectionClosed 1006) := by
  refine ⟨rfl, rfl, ?_⟩
  decide

/-- C3 amended: the `onclose` callback turns the awaiting indicator off in
every case, leaves the answer records and the summary untouched, and
surfaces a failure toast exactly when the closure code differs from the
normal closure code 1000 — independent of whether a summary has been
received. -/
theorem C3_close_surfacing (s : SessionState) (code : Int) :
    (handleClose s code).state.sessionLoading = false ∧
    ((handleClose s code).toast = none ↔ code = normalClosureCode) ∧
    (handleClose s code).state.answers = s.answers ∧
    (handleClose s code).state.summary = s.summary := by
  refine ⟨rfl, ?_, rfl, rfl⟩
  by_cases h : code = normalClosureCode <;> simp [handleClose, h]

/-- C4: a submission whose background trims to empty is rejected with the
empty-background validation toast, the model untouched (in particular no
transport is created: the generation counter is unchanged); a submission
with a non-empty background none of whose questions survives trimming is
rejected with the no-questions validation toast, likewise without any side
effect. -/
theorem C4_validation_gating (m : Model) (bg : String) (qs : List String) :
    (jsTrim bg = "" →
      handleSubmit m bg qs = (m, SubmitOutcome.rejectedEmptyBackground)) ∧
    (jsTrim bg ≠ "" → survivingQuestions qs = [] →
      handleSubmit m bg qs = (m, SubmitOutcome.rejectedNoQuestions)) := by
  constructor
  · intro h
    simp [handleSubmit, h]
  · intro h1 h2
    simp [handleSubmit, h1, h2]

/-- C4 witness: the spec's two concrete examples, `submit("", ["a?"])` and
`submit("ctx", ["", "  "])`. -/
theorem C4_validation_gating_witness :
    handleSubmit initialModel "" ["a?"]
        = (initialModel, SubmitOutcome.rejectedEmptyBackground) ∧
    handleSubmit initialModel "ctx" ["", "  "]
        = (initialModel, SubmitOutcome.rejectedNoQuestions) :=
  ⟨(C4_validation_gating initialModel "" ["a?"]).1 rfl,
   (C4_validation_gating initialModel "ctx" ["", "  "]).2
     (by decide) (by decide)⟩

/-- C2 counterexample: submit once (the session is incomplete: no summary),
submit again — the model is now on transport generation 2 with the awaiting
indicator on — and then deliver a close event fired by the superseded
transport generation 1: the shared `onclose` callback still runs and clears
the awaiting indicator, so a stale-transport event does mutate the current
session's state. -/
theorem C2_stale_event_counterexample :
    (handleSubmit initialModel "ctx" ["q1"]).1.session.summary = none ∧
    (handleSubmit (handleSubmit initialModel "ctx" ["q1"]).1 "ctx"
        ["q1", "q2"]).1.gen = 2 ∧
    (handleSubmit (handleSubmit initialModel "ctx" ["q1"]).1 "ctx"
        ["q1", "q2"]).1.session.sessionLoading = true ∧
    (dispatch
        (handleSubmit (handleSubmit initialModel "ctx" ["q1"]).1 "ctx"
          ["q1", "q2"]).1 1
        (WsEvent.socketClosed 1005)).1.session.sessionLoading = false := by
  refine ⟨rfl, rfl, rfl, rfl⟩

/-- C2 amended: a second valid submission while the first session is
incomplete resets the session (answer records cleared, summary cleared,
ordering hint cleared, pending set `{1..N'}` for the new surviving
questions, awaiting indicator on) and supersedes the old transport by
creating generation `gen + 1`; however the code tags no event with its
transport, so events from the superseded transport are dispatched exactly
like the live transport's events (and can still mutate current state, as
the counterexample shows). -/
theorem C2_reset_on_resubmission (m : Model) (bg : String) (qs : List String)
    (p : RequestPayload) (hinc : m.session.summary = none)
    (hsub : (handleSubmit m bg qs).2 = SubmitOutcome.opened p) :
    (handleSubmit m bg qs).1.session
        = freshSession (survivingQuestions qs).length ∧
    (handleSubmit m bg qs).1.session.answers = [] ∧
    (handleSubmit m bg qs).1.session.summary = none ∧
    (handleSubmit m bg qs).1.session.sentInOrder = none ∧
    pendingNumbers (handleSubmit m bg qs).1.session
        = oneToN (survivingQuestions qs).length ∧
    (handleSubmit m bg qs).1.gen = m.gen + 1 ∧
    ∀ (m' : Model) (g g' : Nat) (e : WsEvent),
      dispatch m' g e = dispatch m' g' e := by
  by_cases h1 : jsTrim bg = ""
  · simp [handleSubmit, h1] at hsub
  · by_cases h2 : (survivingQuestions qs).length = 0
    · simp [handleSubmit, h1, h2] at hsub
    · have hses : (handleSubmit m bg qs).1.session
          = freshSession (survivingQuestions qs).length := by
        simp [handleSubmit, h1, h2]
      have hgen : (handleSubmit m bg qs).1.gen = m.gen + 1 := by
        simp [handleSubmit, h1, h2]
      exact ⟨hses, by rw [hses]; rfl, by rw [hses]; rfl, by rw [hses]; rfl,
        by rw [hses, pending_freshSession], hgen, fun _ _ _ _ => rfl⟩

/-- C2 witness: a concrete resubmission with two surviving questions. -/
theorem C2_reset_on_resubmission_witness :
    (handleSubmit initialModel "ctx" ["q1", "q2"]).1.session
      = freshSession (survivingQuestions ["q1", "q2"]).length :=
  (C2_reset_on_resubmission initialModel "ctx" ["q1", "q2"]
      { type := "process_questions", background := "ctx",
        questions := ["q1", "q2"], model := modelId } rfl rfl).1

theorem applySio_answers (s : SessionState) (sio : Option Bool) :
    (applySio s sio).answers = s.answers := by
  cases sio <;> rfl

theorem applySio_typing (s : SessionState) (sio : Option Bool) :
    (applySio s sio).typing = s.typing := by
  cases sio <;> rfl

theorem onMessage_answer_answers (s : SessionState) (sio : Option Bool)
    (m : AnswerMessage) :
    (onMessage s (Frame.answer sio m)).answers
      = upsertAnswer m s.answers := by
  cases sio <;> rfl

theorem onMessage_answer_typing (s : SessionState) (sio : Option Bool)
    (m : AnswerMessage) :
    (onMessage s (Frame.answer sio m)).typing
      = setKey m.question_number false s.typing := by
  cases sio <;> rfl

theorem upsertAnswer_of_not_mem (m : AnswerMessage) :
    ∀ l : List AnswerMessage,
      m.question_number ∉ l.map AnswerMessage.question_number →
      upsertAnswer m l = l ++ [m]
  | [], _ => rfl
  | a :: l, h => by
      simp only [List.map_cons, List.mem_cons, not_or] at h
      simp only [upsertAnswer]
      rw [if_neg (fun hh => h.1 hh.symm), upsertAnswer_of_not_mem m l h.2,
        List.cons_append]

theorem foldl_upsert_of_nodup :
    ∀ (l acc : List AnswerMessage),
      ((acc ++ l).map AnswerMessage.question_number).Nodup →
      l.foldl (fun a m => upsertAnswer m a) acc = acc ++ l
  | [], acc, _ => by simp
  | m :: t, acc, h => by
      have hnotm : m.question_number ∉ acc.map AnswerMessage.question_number := by
        simp only [List.map_append, List.nodup_append] at h
        exact fun hx => h.2.2 hx (by simp)
      have h2 : (((acc ++ [m]) ++ t).map AnswerMessage.question_number).Nodup := by
        simpa using h
      rw [List.foldl_cons, upsertAnswer_of_not_mem m acc hnotm,
        foldl_upsert_of_nodup t (acc ++ [m]) h2]
      simp

theorem runEvents_cons (s : SessionState) (e : WsEvent) (es : List WsEvent) :
    runEvents s (e :: es) = runEvents (handleEvent s e).state es := rfl

theorem runEvents_answerEvents_answers :
    ∀ (l : List AnswerMessage) (s : SessionState),
      (runEvents s (answerEvents l)).answers
        = l.foldl (fun a m => upsertAnswer m a) s.answers
  | [], _ => rfl
  | m :: t, s => by
      have ih := runEvents_answerEvents_answers t
        (handleEvent s (WsEvent.message (Frame.answer none m))).state
      simp only [answerEvents, List.map_cons] at ih ⊢
      rw [runEvents_cons, ih, List.foldl_cons]
      rfl

theorem sorted_ltByNum_of_nodup (l : List AnswerMessage)
    (hs : List.Sorted leByNum l)
    (hn : (l.map AnswerMessage.question_number).Nodup) :
    List.Sorted ltByNum l := by
  have hne : l.Pairwise
      (fun a b => a.question_number ≠ b.question_number) :=
    List.pairwise_map.mp hn
  exact (hs.and hne).imp (fun h => lt_of_le_of_ne h.1 h.2)

theorem sortByNum_eq_of_perm (l1 l2 : List AnswerMessage)
    (hp : List.Perm l1 l2)
    (hn : (l1.map AnswerMessage.question_number).Nodup) :
    List.insertionSort leByNum l1 = List.insertionSort leByNum l2 := by
  have p1 := List.perm_insertionSort leByNum l1
  have p2 := List.perm_insertionSort leByNum l2
  have hn2 : (l2.map AnswerMessage.question_number).Nodup :=
    ((hp.map AnswerMessage.question_number).nodup_iff).mp hn
  have hn1' : ((List.insertionSort leByNum l1).map
      AnswerMessage.question_number).Nodup :=
    ((p1.map AnswerMessage.question_number).nodup_iff).mpr hn
  have hn2' : ((List.insertionSort leByNum l2).map
      AnswerMessage.question_number).Nodup :=
    ((p2.map AnswerMessage.question_number).nodup_iff).mpr hn2
  exact List.eq_of_perm_of_sorted (p1.trans (hp.trans p2.symm))
    (sorted_ltByNum_of_nodup _ (List.sorted_insertionSort leByNum l1) hn1')
    (sorted_ltByNum_of_nodup _ (List.sorted_insertionSort leByNum l2) hn2')

theorem sortedAnswers_runEvents (N : Nat) (d : List AnswerMessage)
    (hn : (d.map AnswerMessage.question_number).Nodup) :
    sortedAnswers (runEvents (freshSession N) (answerEvents d))
      = List.insertionSort leByNum d := by
  unfold sortedAnswers
  rw [runEvents_answerEvents_answers,
    show (freshSession N).answers = [] from rfl,
    foldl_upsert_of_nodup d [] (by simpa using hn), List.nil_append]

theorem oneToN_nodup (n : Nat) : (oneToN n).Nodup := by
  unfold oneToN
  refine List.Nodup.map ?_ (List.nodup_range n)
  intro a b h
  simp only [Int.ofNat_eq_coe] at h
  omega

/-- C1: starting from the state of a freshly submitted session with
questions `1..N`, delivering the `N` well-formed answer messages in any
order leaves a `sortedAnswers` view that holds exactly those `N` records,
sorted ascending by `question_number`; the view is the same for any two
delivery orders of the same message multiset. -/
theorem C1_ordering_invariant (N : Nat) (msgs delivery : List AnswerMessage)
    (hnums : List.Perm (msgs.map AnswerMessage.question_number) (oneToN N))
    (hdel : List.Perm delivery msgs) :
    List.Perm
        (sortedAnswers (runEvents (freshSession N) (answerEvents delivery)))
        msgs ∧
    List.Sorted leByNum
        (sortedAnswers (runEvents (freshSession N) (answerEvents delivery))) ∧
    ∀ delivery2, List.Perm delivery2 msgs →
      sortedAnswers (runEvents (freshSession N) (answerEvents delivery2))
        = sortedAnswers (runEvents (freshSession N) (answerEvents delivery)) := by
  have hmsgs : (msgs.map AnswerMessage.question_number).Nodup :=
    hnums.nodup_iff.mpr (oneToN_nodup N)
  have hdeln : (delivery.map AnswerMessage.question_number).Nodup :=
    ((hdel.map AnswerMessage.question_number).nodup_iff).mpr hmsgs
  have hrun := sortedAnswers_runEvents N delivery hdeln
  refine ⟨?_, ?_, ?_⟩
  · rw [hrun]
    exact (List.perm_insertionSort leByNum delivery).trans hdel
  · rw [hrun]
    exact List.sorted_insertionSort leByNum delivery
  · intro d2 hd2
    have hd2n : (d2.map AnswerMessage.question_number).Nodup :=
      ((hd2.map AnswerMessage.question_number).nodup_iff).mpr hmsgs
    rw [hrun, sortedAnswers_runEvents N d2 hd2n]
    exact sortByNum_eq_of_perm d2 delivery (hd2.trans hdel.symm) hd2n

/-- C1 witness: two questions, answers delivered in reverse order. -/
theorem C1_ordering_invariant_witness :
    List.Perm ([aEx1, aEx2].map AnswerMessage.question_number) (oneToN 2) ∧
    List.Perm [aEx2, aEx1] [aEx1, aEx2] ∧
    (List.Perm
        (sortedAnswers (runEvents (freshSession 2)
          (answerEvents [aEx2, aEx1]))) [aEx1, aEx2] ∧
     List.Sorted leByNum
        (sortedAnswers (runEvents (freshSession 2)
          (answerEvents [aEx2, aEx1]))) ∧
     ∀ delivery2, List.Perm delivery2 [aEx1, aEx2] →
       sortedAnswers (runEvents (freshSession 2) (answerEvents delivery2))
         = sortedAnswers (runEvents (freshSession 2)
             (answerEvents [aEx2, aEx1]))) :=
  ⟨by decide, by decide,
   C1_ordering_invariant 2 [aEx1, aEx2] [aEx2, aEx1] (by decide) (by decide)⟩

theorem upsert_upsert_same (m1 m2 : AnswerMessage)
    (h : m1.question_number = m2.question_number) :
    ∀ l, upsertAnswer m2 (upsertAnswer m1 l) = upsertAnswer m2 l
  | [] => by simp [upsertAnswer, h]
  | a :: l => by
      by_cases ha : a.question_number = m1.question_number
      · have ha2 : a.question_number = m2.question_number := ha.trans h
        simp [upsertAnswer, ha, ha2, h]
      · have ha2 : ¬a.question_number = m2.question_number :=
          fun hh => ha (hh.trans h.symm)
        simp [upsertAnswer, ha, ha2, upsert_upsert_same m1 m2 h l]

theorem setKey_setKey (k : Int) (v : Bool) :
    ∀ t, setKey k v (setKey k v t) = setKey k v t
  | [] => by simp [setKey]
  | p :: t => by
      by_cases hp : p.1 = k
      · simp [setKey, hp]
      · simp [setKey, hp, setKey_setKey k v t]

theorem lookupAnswer_upsert (m : AnswerMessage) :
    ∀ l, lookupAnswer m.question_number (upsertAnswer m l) = some m
  | [] => by simp [lookupAnswer, upsertAnswer]
  | a :: l => by
      by_cases ha : a.question_number = m.question_number
      · simp [lookupAnswer, upsertAnswer, ha]
      · simpa [lookupAnswer, upsertAnswer, ha] using lookupAnswer_upsert m l

theorem mem_upsertAnswer (m : AnswerMessage) :
    ∀ l, m ∈ upsertAnswer m l
  | [] => by simp [upsertAnswer]
  | a :: l => by
      by_cases ha : a.question_number = m.question_number
      · simp [upsertAnswer, ha]
      · simp [upsertAnswer, ha, mem_upsertAnswer m l]

theorem find?_setKey (k : Int) (v : Bool) :
    ∀ t : List (Int × Bool),
      (setKey k v t).find? (fun p => p.1 == k) = some (k, v)
  | [] => by simp [setKey]
  | p :: t => by
      by_cases hp : p.1 = k
      · simp [setKey, hp]
      · simpa [setKey, hp] using find?_setKey k v t

theorem filter_key_eq_nil (k : Int) :
    ∀ l : List AnswerMessage, k ∉ l.map AnswerMessage.question_number →
      l.filter (fun a => a.question_number == k) = []
  | [], _ => rfl
  | a :: l, h => by
      simp only [List.map_cons, List.mem_cons, not_or] at h
      rw [List.filter_cons_of_neg (by simpa using fun hh => h.1 hh.symm)]
      exact filter_key_eq_nil k l h.2

theorem filter_key_upsert (m : AnswerMessage) :
    ∀ l : List AnswerMessage,
      (l.map AnswerMessage.question_number).Nodup →
      (upsertAnswer m l).filter
          (fun a => a.question_number == m.question_number) = [m]
  | [], _ => by simp [upsertAnswer]
  | a :: l, h => by
      simp only [List.map_cons, List.nodup_cons] at h
      by_cases ha : a.question_number = m.question_number
      · simp only [upsertAnswer, if_pos ha]
        rw [List.filter_cons_of_pos (by simp),
          filter_key_eq_nil m.question_number l (ha ▸ h.1)]
      · simp only [upsertAnswer, if_neg ha]
        rw [List.filter_cons_of_neg (by simpa using ha),
          filter_key_upsert m l h.2]

/-- C5: two answer messages for the same question number, processed in
sequence, leave exactly the state that processing only the second one
leaves: one record for that number holding the later values, no duplicate
entry for that number in the sorted view. -/
theorem C5_latest_overwrites (s : SessionState) (n : Int)
    (m1 m2 : AnswerMessage)
    (h1 : m1.question_number = n) (h2 : m2.question_number = n)
    (hnd : (s.answers.map AnswerMessage.question_number).Nodup) :
    onMessage (onMessage s (Frame.answer none m1)) (Frame.answer none m2)
        = onMessage s (Frame.answer none m2) ∧
    lookupAnswer n
        (onMessage (onMessage s (Frame.answer none m1))
          (Frame.answer none m2)).answers = some m2 ∧
    ((sortedAnswers (onMessage (onMessage s (Frame.answer none m1))
          (Frame.answer none m2))).filter
        (fun a => a.question_number == n)).length = 1 := by
  subst h1
  have hq : m1.question_number = m2.question_number := h2.symm
  have hans : upsertAnswer m2 (upsertAnswer m1 s.answers)
      = upsertAnswer m2 s.answers := upsert_upsert_same m1 m2 hq s.answers
  have htyp : setKey m2.question_number false
        (setKey m1.question_number false s.typing)
      = setKey m2.question_number false s.typing := by
    rw [h2, setKey_setKey]
  have hstate : onMessage (onMessage s (Frame.answer none m1))
      (Frame.answer none m2) = onMessage s (Frame.answer none m2) := by
    simp only [onMessage, applySio]
    ext : 1 <;> simp [hans, htyp]
  refine ⟨hstate, ?_, ?_⟩
  · rw [hstate, onMessage_answer_answers, ← h2]
    exact lookupAnswer_upsert m2 s.answers
  · rw [hstate]
    have hperm : List.Perm
        (sortedAnswers (onMessage s (Frame.answer none m2)))
        (upsertAnswer m2 s.answers) := by
      unfold sortedAnswers
      rw [onMessage_answer_answers]
      exact List.perm_insertionSort leByNum _
    rw [← h2, (hperm.filter _).length_eq, filter_key_upsert m2 s.answers hnd]
    rfl

/-- C5 witness: the same question answered twice with different texts. -/
theorem C5_latest_overwrites_witness :
    onMessage (onMessage (freshSession 2) (Frame.answer none aEx1))
        (Frame.answer none aEx1v2)
      = onMessage (freshSession 2) (Frame.answer none aEx1v2) :=
  (C5_latest_overwrites (freshSession 2) 1 aEx1 aEx1v2 rfl rfl (by decide)).1

/-- C9: the `answer` branch of `onmessage` checks no range on
`question_number`: for every well-formed answer message — its number may be
0, negative, or larger than the submitted question count — the record is
written under that number, it is a member of the sorted view (which stays
sorted), and that number's typing flag is set to `false`, even when the
number was never in the initial pending set. -/
theorem C9_no_range_check (s : SessionState) (sio : Option Bool)
    (m : AnswerMessage) :
    lookupAnswer m.question_number
        (onMessage s (Frame.answer sio m)).answers = some m ∧
    m ∈ sortedAnswers (onMessage s (Frame.answer sio m)) ∧
    List.Sorted leByNum (sortedAnswers (onMessage s (Frame.answer sio m))) ∧
    lookupTyping m.question_number
        (onMessage s (Frame.answer sio m)).typing = some false := by
  refine ⟨?_, ?_, ?_, ?_⟩
  · rw [onMessage_answer_answers]
    exact lookupAnswer_upsert m s.answers
  · unfold sortedAnswers
    rw [onMessage_answer_answers]
    exact ((List.perm_insertionSort leByNum _).mem_iff).mpr
      (mem_upsertAnswer m s.answers)
  · exact List.sorted_insertionSort leByNum _
  · rw [onMessage_answer_typing]
    unfold lookupTyping
    rw [find?_setKey]
    rfl

/-- C9 companion check: question number 0 — outside the initial pending set
`{1, 2}` of a two-question session — is recorded all the same. -/
theorem C9_no_range_check_witness :
    lookupAnswer 0
        (onMessage (freshSession 2) (Frame.answer none aEx0)).answers
      = some aEx0 :=
  (C9_no_range_check (freshSession 2) none aEx0).1

theorem pendingOf_cons (p : Int × Bool) (t : List (Int × Bool)) :
    pendingOf (p :: t)
      = if p.2 then p.1 :: pendingOf t else pendingOf t := by
  unfold pendingOf
  by_cases h : p.2 <;> simp [List.filter_cons, h]

theorem not_mem_pendingOf_of_not_key (t : List (Int × Bool)) (x : Int)
    (h : x ∉ t.map Prod.fst) : x ∉ pendingOf t := by
  intro hx
  obtain ⟨p, hp, rfl⟩ := List.mem_map.mp hx
  exact h (List.mem_map.mpr ⟨p, List.mem_of_mem_filter hp, rfl⟩)

theorem mem_pendingOf_setKey_false (k x : Int) :
    ∀ t : List (Int × Bool), (t.map Prod.fst).Nodup →
      (x ∈ pendingOf (setKey k false t) ↔ x ∈ pendingOf t ∧ x ≠ k)
  | [], _ => by simp [setKey, pendingOf_cons, pendingOf]
  | p :: t, h => by
      simp only [List.map_cons, List.nodup_cons] at h
      by_cases hp : p.1 = k
      · have hknot : k ∉ pendingOf t :=
          not_mem_pendingOf_of_not_key t k (hp ▸ h.1)
        have himp : x ∈ pendingOf t → x ≠ k :=
          fun hx hk => hknot (hk ▸ hx)
        simp only [setKey, if_pos hp, pendingOf_cons]
        by_cases hv : p.2 <;> simp [hv, hp] <;> tauto
      · have ih := mem_pendingOf_setKey_false k x t h.2
        have hxp : x = p.1 → x ≠ k := fun hx hk => hp ((hx.symm.trans hk) ▸ rfl)
        simp only [setKey, if_neg hp, pendingOf_cons]
        by_cases hv : p.2 <;> simp [hv, ih] <;> tauto

theorem mem_pendingOf_setKey_of_ne (k' : Int) (v : Bool) (x : Int)
    (hx : x ≠ k') :
    ∀ t : List (Int × Bool),
      (x ∈ pendingOf (setKey k' v t) ↔ x ∈ pendingOf t)
  | [] => by
      cases v <;> simp [setKey, pendingOf_cons, pendingOf, hx]
  | p :: t => by
      by_cases hp : p.1 = k'
      · have hxp : x ≠ p.1 := hp ▸ hx
        simp only [setKey, if_pos hp, pendingOf_cons]
        cases v <;> by_cases hv : p.2 <;> simp [hv, hx, hxp, hp]
      · have ih := mem_pendingOf_setKey_of_ne k' v x hx t
        simp only [setKey, if_neg hp, pendingOf_cons]
        by_cases hv : p.2 <;> simp [hv, ih]

theorem pending_preserved (k : Int) :
    ∀ (es : List WsEvent) (s : SessionState),
      k ∈ pendingNumbers s → (∀ e ∈ es, isAnswerFor e k = false) →
      k ∈ pendingNumbers (runEvents s es)
  | [], _, hk, _ => hk
  | e :: es, s, hk, hes => by
      have he := hes e (List.mem_cons_self e es)
      have hrest : ∀ e' ∈ es, isAnswerFor e' k = false :=
        fun e' h' => hes e' (List.mem_cons_of_mem e h')
      rw [runEvents_cons]
      refine pending_preserved k es _ ?_ hrest
      cases e with
      | message f =>
          cases f with
          | malformed => exact hk
          | answer sio m =>
              have hne : k ≠ m.question_number := by
                simp only [isAnswerFor, beq_eq_false_iff_ne, ne_eq] at he
                exact fun hh => he hh.symm
              show k ∈ pendingNumbers (onMessage s (Frame.answer sio m))
              unfold pendingNumbers
              rw [onMessage_answer_typing]
              exact (mem_pendingOf_setKey_of_ne m.question_number false k
                hne s.typing).mpr hk
          | summaryMsg m =>
              show k ∈ pendingOf
                (onMessage s (Frame.summaryMsg m)).typing
              have : (onMessage s (Frame.summaryMsg m)).typing = s.typing :=
                applySio_typing s m.sent_in_order
              rw [this]
              exact hk
          | other sio =>
              show k ∈ pendingOf (applySio s sio).typing
              rw [applySio_typing]
              exact hk
      | socketError => exact hk
      | socketClosed code => exact hk
      | connectTimeoutFired c => cases c <;> exact hk

theorem handleSubmit_of_opened (mo : Model) (bg : String) (qs : List String)
    (p : RequestPayload)
    (hsub : (handleSubmit mo bg qs).2 = SubmitOutcome.opened p) :
    (handleSubmit mo bg qs).1
      = { gen := mo.gen + 1,
          session := freshSession (survivingQuestions qs).length } := by
  by_cases h1 : jsTrim bg = ""
  · simp [handleSubmit, h1] at hsub
  · by_cases h2 : (survivingQuestions qs).length = 0
    · simp [handleSubmit, h1, h2] at hsub
    · simp [handleSubmit, h1, h2]

/-- C6: immediately after a valid submission the pending set is the question
numbers `1..N` of the surviving questions; processing an answer message for
number `k` removes exactly `k` from the pending set (a no-op when `k` is
already absent); every event other than an answer frame leaves the typing
map unchanged; and a number never answered by any event of a stream stays
pending through that stream. -/
theorem C6_pending_consistency (mo : Model) (bg : String) (qs : List String)
    (p : RequestPayload) (s : SessionState) (k : Int) (es : List WsEvent)
    (hsub : (handleSubmit mo bg qs).2 = SubmitOutcome.opened p)
    (hnd : (s.typing.map Prod.fst).Nodup) :
    pendingNumbers (handleSubmit mo bg qs).1.session
        = oneToN (survivingQuestions qs).length ∧
    (∀ (sio : Option Bool) (am : AnswerMessage), am.question_number = k →
      ∀ x : Int, x ∈ pendingNumbers (onMessage s (Frame.answer sio am))
        ↔ x ∈ pendingNumbers s ∧ x ≠ k) ∧
    (∀ e : WsEvent,
      (∀ (sio : Option Bool) (am : AnswerMessage),
        e ≠ WsEvent.message (Frame.answer sio am)) →
      (handleEvent s e).state.typing = s.typing) ∧
    (k ∈ pendingNumbers s → (∀ e ∈ es, isAnswerFor e k = false) →
      k ∈ pendingNumbers (runEvents s es)) := by
  refine ⟨?_, ?_, ?_, fun hk hes => pending_preserved k es s hk hes⟩
  · rw [handleSubmit_of_opened mo bg qs p hsub]
    exact pending_freshSession (survivingQuestions qs).length
  · intro sio am ham x
    unfold pendingNumbers
    rw [onMessage_answer_typing, ham]
    exact mem_pendingOf_setKey_false k x s.typing hnd
  · intro e he
    cases e with
    | message f =>
        cases f with
        | malformed => rfl
        | answer sio m => exact absurd rfl (he sio m)
        | summaryMsg m => exact applySio_typing s m.sent_in_order
        | other sio => exact applySio_typing s sio
    | socketError => rfl
    | socketClosed code => rfl
    | connectTimeoutFired c => cases c <;> rfl

/-- C6 witness: a fresh two-question session, with a non-answer event
stream. -/
theorem C6_pending_consistency_witness :
    pendingNumbers
        (handleSubmit initialModel "ctx" ["a?", "b?"]).1.session
      = oneToN (survivingQuestions ["a?", "b?"]).length :=
  (C6_pending_consistency initialModel "ctx" ["a?", "b?"]
      { type := "process_questions", background := "ctx",
        questions := ["a?", "b?"], model := modelId }
      (freshSession 2) 1 [WsEvent.socketError] (by decide) (by decide)).1

end IFRSAdvisor
